import Mathlib

/-!
Verification of the fastapi-chat-app repository.

This file shallowly embeds the parts of the code that the claims are
about: the connection registry and delivery facade
(`connection_manager.py`), the `chat_id` derivations (`aws_services.py`
and `handler_messages.py`), the three message handlers and the factory
(`handler_messages.py`), the constants (`config.py`), and the
per-connection receive loop of `websocket_endpoint` (`main.py`).

Modelling conventions:
* JSON scalar values flowing through `dict.get` are modelled by `PyVal`
  (string, integer, boolean, or Python `None`); a JSON object frame is
  an association list `Frame`.  The claims only involve scalar field
  values, so nested objects are not modelled.
* Side effects (socket writes, Redis publishes, DynamoDB writes, S3
  pre-sign requests) are recorded in an explicit `Effect` list.
* External collaborator results (the S3 pre-signed-url call) enter as
  explicit parameters.
* A Python exception that escapes a handler is the `HResult.exn` value;
  the receive loop's `except` clauses are modelled in `step`.
-/

namespace ChatApp

/-- A JSON scalar value as handled by the Python code (`data.get(...)`).
`none_` is Python `None`, the result of `dict.get` on a missing key. -/
inductive PyVal where
  | s (v : String)
  | n (v : Int)
  | b (v : Bool)
  | none_
deriving DecidableEq, Repr

/-- A JSON object frame: what `json.loads` yields for the inbound
messages and what `json.dumps` serialises for the outbound ones. -/
abbrev Frame := List (String × PyVal)

/-- Python `data.get(key)`: the first binding of `key`, else `None`. -/
def getField : Frame → String → PyVal
  | [], _ => .none_
  | (k, v) :: rest, key => if k = key then v else getField rest key

/-- Python `data.get(key, default)`: the first binding of `key`, else
the default. -/
def getFieldD : Frame → String → PyVal → PyVal
  | [], _, default => default
  | (k, v) :: rest, key, default =>
      if k = key then v else getFieldD rest key default

/-- Python truthiness of a scalar: `""`, `0`, `False` and `None` are
falsy, everything else is truthy. -/
def PyVal.truthy : PyVal → Bool
  | .s v => v != ""
  | .n v => v != 0
  | .b v => v
  | .none_ => false

/-- Python `x > m` for an `int` bound `m`: defined on numbers (a Python
`bool` is an `int`: `True` is `1`, `False` is `0`); comparing a string
or `None` with an `int` raises `TypeError`, modelled as `none`. -/
def pyGtInt : PyVal → Int → Option Bool
  | .n v, m => some (decide (m < v))
  | .b v, m => some (decide (m < (if v then 1 else 0 : Int)))
  | _, _ => none

/-- Lexicographic `<` on char lists: how CPython compares two `str`
values (by Unicode code point, a strict prefix is smaller). -/
def listLtChar : List Char → List Char → Bool
  | [], [] => false
  | [], _ :: _ => true
  | _ :: _, [] => false
  | a :: as, b :: bs =>
      if a < b then true else if b < a then false else listLtChar as bs

/-- Python `str` comparison `a < b`. -/
def pyStrLt (a b : String) : Bool := listLtChar a.data b.data

/-- Python `sorted([a, b])` for two strings, returned as a pair. -/
def sorted2 (a b : String) : String × String :=
  if pyStrLt b a then (b, a) else (a, b)

/- === config.py === -/

/-- `config.MAX_FREE_MESSAGES` (src/config.py line 7). -/
def MAX_FREE_MESSAGES : Nat := 50

/-- `config.MAX_FREE_FILE_SIZE_MB` (src/config.py line 8). -/
def MAX_FREE_FILE_SIZE_MB : Nat := 2

/-- `config.MAX_FREE_FILE_SIZE_BYTES` (src/config.py line 9). -/
def MAX_FREE_FILE_SIZE_BYTES : Nat := MAX_FREE_FILE_SIZE_MB * 1024 * 1024

/- === auth.py: the authenticated user object as used by the core === -/

/-- The fields of `auth.User` the handlers read.  `is_premium` is the
value placed on the object at connect time from DynamoDB. -/
structure User where
  user_id : String
  username : String
  is_premium : Bool
deriving DecidableEq, Repr

/- === connection_manager.py === -/

/-- A process-local socket handle; `healthy` says whether
`websocket.send_text` succeeds on it. -/
structure Socket where
  healthy : Bool
deriving DecidableEq, Repr

/-- The state of `ConnectionManager`: the `active_connections`
dictionary, one socket per registered `user_id`. -/
structure CMState where
  active_connections : List (String × Socket)
deriving DecidableEq, Repr

/-- Dictionary lookup `active_connections.get(user_id)` (string key). -/
def lookupStr : List (String × Socket) → String → Option Socket
  | [], _ => none
  | (k, v) :: rest, u => if k = u then some v else lookupStr rest u

/-- Removal of a key from the dictionary (`del`, if present). -/
def removeKey : List (String × Socket) → String → List (String × Socket)
  | [], _ => []
  | (k, v) :: rest, u =>
      if k = u then removeKey rest u else (k, v) :: removeKey rest u

/-- `ConnectionManager.disconnect` (src/connection_manager.py lines
52-55): delete the entry if present, no-op otherwise. -/
def disconnect (cm : CMState) (user_id : String) : CMState :=
  ⟨removeKey cm.active_connections user_id⟩

/-- `ConnectionManager.connect` registration effect
(src/connection_manager.py line 50): dictionary assignment, replacing
any prior entry for the same `user_id`. -/
def register (cm : CMState) (user_id : String) (sock : Socket) : CMState :=
  ⟨(user_id, sock) :: removeKey cm.active_connections user_id⟩

/-- An observable side effect of the core. -/
inductive Effect where
  /-- `websocket.send_text(json.dumps frame)` on the local socket
  registered for `user_id`. -/
  | sentText (user_id : String) (frame : Frame)
  /-- `redis.publish("chat_broadcast", json.dumps {target_user_id,
  message})` (src/connection_manager.py lines 100-104); the envelope
  holds exactly the target and the serialised frame. -/
  | publishedEnvelope (target : PyVal) (frame : Frame)
  /-- `aws.save_message_to_dynamo(chat_id, sender_id, username,
  content, msg_type)`. -/
  | savedMessage (chat_id : PyVal) (sender_id username : String)
      (content : PyVal) (msg_type : String)
  /-- `aws.increment_user_message_count(user_id)`: the durable
  counter increment. -/
  | incrementedCount (user_id : String)
  /-- `aws.create_s3_presigned_url(user_id, filename)` was called. -/
  | presignRequested (user_id : String) (filename : PyVal)
deriving DecidableEq, Repr

/-- `ConnectionManager.send_personal_message(message, user_id)`
(src/connection_manager.py lines 83-105).  If the target is a locally
registered string key: write to that socket and return `True`; on a
write failure, `disconnect` the entry and return `False`.  Otherwise
(including a non-string target such as Python `None`, which matches no
string key) publish the envelope to the `chat_broadcast` topic and
return `True`. -/
def send_personal_message (cm : CMState) (frame : Frame) (target : PyVal) :
    Bool × CMState × List Effect :=
  match target with
  | .s uid =>
      match lookupStr cm.active_connections uid with
      | some sock =>
          if sock.healthy then (true, cm, [.sentText uid frame])
          else (false, disconnect cm uid, [])
      | none => (true, cm, [.publishedEnvelope (.s uid) frame])
  | other => (true, cm, [.publishedEnvelope other frame])

/- === aws_services.py: chat_id derivation === -/

/-- The `chat_id` built by `aws_services.create_new_chat_session`
(src/aws_services.py lines 342-344): `users = sorted([current_username,
target_username]); chat_id = f"{users[0]}::CHAT::{users[1]}"`. -/
def create_new_chat_session_chat_id (current_username target_username : String) :
    String :=
  let users := sorted2 current_username target_username
  users.1 ++ "::CHAT::" ++ users.2

/- === handler_messages.py === -/

/-- The `chat_id` built by `HandlerShowFile.handle_message`
(src/handler_messages.py lines 126-128): `users = sorted([user.user_id,
recipient_id]); chat_id = f"{users[0]}_{users[1]}"`. -/
def show_file_chat_id (user_id recipient_id : String) : String :=
  let users := sorted2 user_id recipient_id
  users.1 ++ "_" ++ users.2

/-- The second component of a handler's `(success, info)` return value:
either a Python string or the error dict the handler also sent. -/
inductive HMsg where
  | str (v : String)
  | errObj (f : Frame)
deriving DecidableEq, Repr

/-- The outcome of one `handle_message` call: a normal `(valid, msg)`
return, or a Python exception escaping the handler. -/
inductive HResult where
  | ok (valid : Bool) (msg : HMsg)
  | exn
deriving DecidableEq, Repr

/-- `HandlerMessageChat.handle_message` (src/handler_messages.py lines
26-65).  Checks `chat_id` and `content` truthiness (note: the guard
does not test `recipient_id`, although its error text names it), then
the `aws` kwarg; saves the message, increments the durable counter for
a non-premium sender, and sends the broadcast frame back to the sender
and then to `recipient_id` as taken from the payload. -/
def HandlerMessageChat.handle_message (cm : CMState) (user : User)
    (data : Frame) (aws_present : Bool) : HResult × CMState × List Effect :=
  let recipient_id := getField data "recipient_id"
  let chat_id := getField data "chat_id"
  let content := getFieldD data "content" (.s "")
  if !chat_id.truthy || !content.truthy then
    let err : Frame :=
      [("type", .s "error"), ("content", .s "Missing recipient_id or content.")]
    let r := send_personal_message cm err (.s user.user_id)
    (.ok false (.errObj err), r.2.1, r.2.2)
  else if !aws_present then
    (.ok false (.str "Cannot save data to aws. Missing aws parameter"), cm, [])
  else
    let e1 : List Effect :=
      [.savedMessage chat_id user.user_id user.username content "text"]
    let add_count := !user.is_premium
    let e2 : List Effect :=
      if !user.is_premium then [.incrementedCount user.user_id] else []
    let broadcast_msg : Frame :=
      [("type", .s "chat"), ("sender_id", .s user.user_id),
       ("chat_id", chat_id), ("username", .s user.username),
       ("content", content)]
    let r1 := send_personal_message cm broadcast_msg (.s user.user_id)
    let r2 := send_personal_message r1.2.1 broadcast_msg recipient_id
    (.ok true (if add_count = false then .str "" else .str "incremented"),
     r2.2.1, e1 ++ e2 ++ r1.2.2 ++ r2.2.2)

/-- `HandlerFileRequestUpload.handle_message` (src/handler_messages.py
lines 72-104).  Checks the `aws` kwarg, then `filename`/`filesize`
truthiness; rejects a non-premium requester whose `filesize` exceeds
`MAX_FREE_FILE_SIZE_BYTES` (the comparison raises `TypeError` on a
non-numeric `filesize`, and is short-circuited away for a premium
user); otherwise requests a pre-signed url (`s3_result` is the
collaborator's reply, `none` for the `{}` it returns on an error) and
sends either the `file_upload_url` frame or an error frame to the
requester, returning `(True, "")` in both cases. -/
def HandlerFileRequestUpload.handle_message (cm : CMState) (user : User)
    (data : Frame) (aws_present : Bool)
    (s3_result : Option (String × String)) : HResult × CMState × List Effect :=
  let filename := getField data "filename"
  let filesize := getField data "filesize"
  if !aws_present then
    (.ok false (.str "Cannot save data to aws. Missing aws parameter"), cm, [])
  else if !filename.truthy || !filesize.truthy then
    let err : Frame :=
      [("type", .s "error"),
       ("content", .s "File request missing filename or filesize.")]
    let r := send_personal_message cm err (.s user.user_id)
    (.ok false (.errObj err), r.2.1, r.2.2)
  else
    let proceed : Unit → HResult × CMState × List Effect := fun _ =>
      let eReq : List Effect := [.presignRequested user.user_id filename]
      match s3_result with
      | some url_data =>
          let response : Frame :=
            [("type", .s "file_upload_url"), ("filename", filename),
             ("url", .s url_data.1), ("s3_key", .s url_data.2)]
          let r := send_personal_message cm response (.s user.user_id)
          (.ok true (.str ""), r.2.1, eReq ++ r.2.2)
      | none =>
          let err : Frame :=
            [("type", .s "error"), ("content", .s "Could not prepare file upload.")]
          let r := send_personal_message cm err (.s user.user_id)
          (.ok true (.str ""), r.2.1, eReq ++ r.2.2)
    if user.is_premium then proceed ()
    else
      match pyGtInt filesize (MAX_FREE_FILE_SIZE_BYTES : Int) with
      | none => (.exn, cm, [])
      | some true =>
          let err : Frame :=
            [("type", .s "error"),
             ("content", .s ("File size exceeds free limit of " ++
                toString MAX_FREE_FILE_SIZE_MB ++ "MB."))]
          let r := send_personal_message cm err (.s user.user_id)
          (.ok false (.errObj err), r.2.1, r.2.2)
      | some false => proceed ()

/-- `HandlerShowFile.handle_message` (src/handler_messages.py lines
110-150).  Checks the `aws` kwarg, then `s3_key`/`filename`/
`recipient_id` truthiness; computes the chat id by sorting
`[user.user_id, recipient_id]` (CPython raises `TypeError` there when
`recipient_id` is not a string).  For a non-premium sender the code
runs `increment_user_message_count` and then executes
`current_message_count += 1` on a local name that is never assigned in
this function's scope, so CPython raises `UnboundLocalError` before
anything is saved or delivered; for a premium sender it saves the
file message and sends the `file` frame to the recipient and then
back to the sender. -/
def HandlerShowFile.handle_message (cm : CMState) (user : User)
    (data : Frame) (aws_present : Bool) : HResult × CMState × List Effect :=
  let s3_key := getField data "s3_key"
  let filename := getField data "filename"
  let recipient_id := getField data "recipient_id"
  if !aws_present then
    (.ok false (.str "Cannot save data to aws. Missing aws parameter"), cm, [])
  else if !s3_key.truthy || !filename.truthy || !recipient_id.truthy then
    let err : Frame :=
      [("type", .s "error"),
       ("content", .s "File confirmation missing s3_key, filename, or recipient_id.")]
    let r := send_personal_message cm err (.s user.user_id)
    (.ok false (.errObj err), r.2.1, r.2.2)
  else
    match recipient_id with
    | .s rid =>
        let chat_id := show_file_chat_id user.user_id rid
        if !user.is_premium then
          (.exn, cm, [.incrementedCount user.user_id])
        else
          let e1 : List Effect :=
            [.savedMessage (.s chat_id) user.user_id user.username s3_key "file"]
          let broadcast_msg : Frame :=
            [("type", .s "file"), ("sender_id", .s user.user_id),
             ("chat_id", .s chat_id), ("username", .s user.username),
             ("filename", filename), ("s3_key", s3_key)]
          let r1 := send_personal_message cm broadcast_msg (.s rid)
          let r2 := send_personal_message r1.2.1 broadcast_msg (.s user.user_id)
          (.ok true (.str ""), r2.2.1, e1 ++ r1.2.2 ++ r2.2.2)
    | _ => (.exn, cm, [])

/-- The closed set of handler classes the factory can return. -/
inductive HandlerKind where
  | chat
  | fileRequestUpload
  | showFile
deriving DecidableEq, Repr

/-- `FactoryHandler.get_instance_messages_type_handler`
(src/handler_messages.py lines 156-168): equality tests of the raw
`type` value against the three known tags; anything else (including a
missing `type`, i.e. Python `None`) yields `None`, modelled `none`. -/
def FactoryHandler.get_instance_messages_type_handler (message_type : PyVal) :
    Option HandlerKind :=
  if message_type = .s "chat" then some .chat
  else if message_type = .s "file_request" then some .fileRequestUpload
  else if message_type = .s "file_uploaded" then some .showFile
  else none

/- === main.py: the per-connection receive loop === -/

/-- The local state of one `websocket_endpoint` invocation: the shared
connection manager, the in-memory `current_message_count` seeded at
connect time, and the trace of effects so far. -/
structure LoopState where
  cm : CMState
  current_message_count : Nat
  effects : List Effect
deriving DecidableEq, Repr

/-- One inbound event of the receive loop.  `invalidJson` is a text
frame on which `json.loads` raises; `nonObjectJson` is valid JSON that
is not an object (so `data.get` raises `AttributeError`); `frame`
carries the parsed object together with the S3 collaborator's reply
for this step (consulted only by a `file_request`). -/
inductive Inbound where
  | disconnectSignal
  | invalidJson
  | nonObjectJson (v : PyVal)
  | frame (data : Frame) (s3_result : Option (String × String))
deriving DecidableEq, Repr

/-- Which `except` clause of `websocket_endpoint` ended the loop. -/
inductive EndCause where
  | disconnectSignal
  | invalidJson
  | exception
deriving DecidableEq, Repr

/-- The result of processing one inbound event: the loop continues
with a new state, or it ends with a cause and a final state. -/
inductive StepResult where
  | next (st : LoopState)
  | ended (cause : EndCause) (st : LoopState)
deriving DecidableEq, Repr

/-- The admission test of the quota gate (src/main.py lines 193-198):
`is_allowed_to_send` is set when the user is premium or the in-memory
count is strictly below `MAX_FREE_MESSAGES`. -/
def quotaAdmits (user : User) (current_message_count : Nat) : Bool :=
  user.is_premium || decide (current_message_count < MAX_FREE_MESSAGES)

/-- The quota-rejection frame (src/main.py lines 201-202). -/
def quotaErrorFrame : Frame :=
  [("type", .s "error"),
   ("content", .s "You have reached your free message limit."),
   ("code", .s "001")]

/-- The `handle_message` call of the handler class the factory chose,
with `aws` always passed (src/main.py lines 207-209 pass `aws = aws`). -/
def runHandler (kind : HandlerKind) (cm : CMState) (user : User) (data : Frame)
    (s3_result : Option (String × String)) : HResult × CMState × List Effect :=
  match kind with
  | .chat => HandlerMessageChat.handle_message cm user data true
  | .fileRequestUpload =>
      HandlerFileRequestUpload.handle_message cm user data true s3_result
  | .showFile => HandlerShowFile.handle_message cm user data true

/-- Dispatch of an already-admitted frame (src/main.py lines 207-215).
`FactoryHandler` returning `None` makes the loop call
`None.handle_message`, raising `AttributeError`, which the outer
`except Exception` catches: it disconnects the user and the loop ends.
A handler exception takes the same path.  On a normal return the loop
continues, incrementing the in-memory count exactly when the handler
reported `(True, "incremented")`. -/
def dispatchFrame (user : User) (st : LoopState) (data : Frame)
    (s3_result : Option (String × String)) : StepResult :=
  match FactoryHandler.get_instance_messages_type_handler (getField data "type") with
  | none =>
      .ended .exception { st with cm := disconnect st.cm user.user_id }
  | some kind =>
      match runHandler kind st.cm user data s3_result with
      | (.exn, cm1, effs) =>
          .ended .exception
            { cm := disconnect cm1 user.user_id,
              current_message_count := st.current_message_count,
              effects := st.effects ++ effs }
      | (.ok valid msg, cm1, effs) =>
          let st1 : LoopState :=
            { cm := cm1, current_message_count := st.current_message_count,
              effects := st.effects ++ effs }
          if !valid then .next st1
          else if msg = .str "incremented" then
            .next { st1 with current_message_count := st1.current_message_count + 1 }
          else .next st1

/-- One iteration of the `while True` receive loop of
`websocket_endpoint` (src/main.py lines 186-225) together with its
`except` clauses: a `WebSocketDisconnect` disconnects the user and
ends the loop; a `json.JSONDecodeError` ends the loop *without*
disconnecting (the `except` sits outside the `while`, so the loop does
not continue); any other exception disconnects the user and ends the
loop.  An admitted object frame goes to `dispatchFrame`; a rejected
one gets the quota error frame sent to the sender only and the loop
continues with the counter untouched. -/
def step (user : User) (st : LoopState) (ev : Inbound) : StepResult :=
  match ev with
  | .disconnectSignal =>
      .ended .disconnectSignal { st with cm := disconnect st.cm user.user_id }
  | .invalidJson => .ended .invalidJson st
  | .nonObjectJson _ =>
      .ended .exception { st with cm := disconnect st.cm user.user_id }
  | .frame data s3_result =>
      if quotaAdmits user st.current_message_count then
        dispatchFrame user st data s3_result
      else
        let r := send_personal_message st.cm quotaErrorFrame (.s user.user_id)
        .next { st with cm := r.2.1, effects := st.effects ++ r.2.2 }

/-- The outcome of running the loop on a finite prefix of inbound
events: still waiting for the next frame, or ended by an exception
with the remaining events never received. -/
inductive RunResult where
  | pending (st : LoopState)
  | ended (cause : EndCause) (st : LoopState) (unprocessed : List Inbound)
deriving DecidableEq, Repr

/-- The receive loop over a list of inbound events. -/
def runLoop (user : User) (st : LoopState) : List Inbound → RunResult
  | [] => .pending st
  | ev :: rest =>
      match step user st ev with
      | .next st1 => runLoop user st1 rest
      | .ended cause st1 => .ended cause st1 rest

/- === Helper lemmas === -/

/-- Looking up a removed key yields nothing. -/
theorem lookupStr_removeKey (l : List (String × Socket)) (u : String) :
    lookupStr (removeKey l u) u = none := by
  induction l with
  | nil => rfl
  | cons kv rest ih =>
      obtain ⟨k, v⟩ := kv
      by_cases hk : k = u
      · simp only [removeKey, if_pos hk]; exact ih
      · simp only [removeKey, if_neg hk, lookupStr, ih, if_neg hk]

/-- Lexicographic `<` on char lists is asymmetric. -/
theorem listLtChar_asymm (x : List Char) :
    ∀ y, listLtChar x y = true → listLtChar y x = false := by
  induction x with
  | nil => intro y _; cases y <;> simp [listLtChar]
  | cons a as ih =>
      intro y h
      cases y with
      | nil => simp [listLtChar] at h
      | cons b bs =>
          simp only [listLtChar] at h ⊢
          by_cases hab : a < b
          · rw [if_neg (lt_asymm hab), if_pos hab]
          · rw [if_neg hab] at h
            by_cases hba : b < a
            · rw [if_pos hba] at h; cases h
            · rw [if_neg hba] at h
              rw [if_neg hba, if_neg hab]
              exact ih bs h

/-- Two char lists neither of which is below the other are equal. -/
theorem listLtChar_eq_of_not_lt (x : List Char) :
    ∀ y, listLtChar x y = false → listLtChar y x = false → x = y := by
  induction x with
  | nil =>
      intro y h1 _
      cases y with
      | nil => rfl
      | cons b bs => simp [listLtChar] at h1
  | cons a as ih =>
      intro y h1 h2
      cases y with
      | nil => simp [listLtChar] at h2
      | cons b bs =>
          simp only [listLtChar] at h1 h2
          by_cases hab : a < b
          · rw [if_pos hab] at h1; cases h1
          · rw [if_neg hab] at h1
            by_cases hba : b < a
            · rw [if_pos hba] at h2; cases h2
            · rw [if_neg hba] at h1
              rw [if_neg hba, if_neg hab] at h2
              have hchar : a = b := le_antisymm (not_lt.mp hba) (not_lt.mp hab)
              rw [hchar, ih bs h1 h2]

/-- `sorted2` does not depend on the order of its two arguments. -/
theorem sorted2_comm (a b : String) : sorted2 a b = sorted2 b a := by
  unfold sorted2 pyStrLt
  cases h1 : listLtChar b.data a.data with
  | true =>
      rw [listLtChar_asymm b.data a.data h1]
      simp
  | false =>
      cases h2 : listLtChar a.data b.data with
      | true => simp
      | false =>
          have hd : a.data = b.data := listLtChar_eq_of_not_lt a.data b.data h2 h1
          have hab : a = b := by
            cases a with
            | mk da =>
                cases b with
                | mk db =>
                    simp only [String.data] at hd
                    rw [hd]
          simp [hab]

/-- An ended dispatch is always the `except Exception` path, and it
always leaves the sender's registry entry removed. -/
theorem dispatchFrame_ended (user : User) (st : LoopState) (data : Frame)
    (s3_result : Option (String × String)) (c : EndCause) (st' : LoopState)
    (h : dispatchFrame user st data s3_result = .ended c st') :
    c = .exception ∧
    lookupStr st'.cm.active_connections user.user_id = none := by
  cases hf : FactoryHandler.get_instance_messages_type_handler (getField data "type") with
  | none =>
      simp only [dispatchFrame, hf, StepResult.ended.injEq] at h
      obtain ⟨hc, hst⟩ := h
      subst hc
      refine ⟨rfl, ?_⟩
      rw [← hst]
      exact lookupStr_removeKey st.cm.active_connections user.user_id
  | some kind =>
      simp only [dispatchFrame, hf] at h
      split at h
      · simp only [StepResult.ended.injEq] at h
        obtain ⟨hc, hst⟩ := h
        subst hc
        refine ⟨rfl, ?_⟩
        rw [← hst]
        exact lookupStr_removeKey _ _
      · split at h
        · simp at h
        · split at h <;> simp at h

/- === The claims === -/

/-- C1: the quota gate.  For every inbound frame from a connected user
(registered, working socket): if the user is premium or has an
in-memory count strictly below `MAX_FREE_MESSAGES` the frame goes to
the dispatcher; otherwise the loop sends the structured error frame
`{type:"error", content:..., code:"001"}` to the sender only and
continues — the connection-manager state, the in-memory counter and
the effect trace (hence the durable counter) are otherwise unchanged
and no handler runs.  The third conjunct identifies rejection with
being non-premium at or above the limit. -/
theorem quota_gate_admits_and_rejects (user : User) (st : LoopState)
    (data : Frame) (s3_result : Option (String × String)) (sock : Socket)
    (hconn : lookupStr st.cm.active_connections user.user_id = some sock)
    (hok : sock.healthy = true) :
    (quotaAdmits user st.current_message_count = true →
        step user st (.frame data s3_result) = dispatchFrame user st data s3_result) ∧
    (quotaAdmits user st.current_message_count = false →
        step user st (.frame data s3_result) =
          .next { st with
                  effects := st.effects ++ [Effect.sentText user.user_id quotaErrorFrame] }) ∧
    (quotaAdmits user st.current_message_count = false ↔
        user.is_premium = false ∧ MAX_FREE_MESSAGES ≤ st.current_message_count) := by
  refine ⟨fun ha => ?_, fun ha => ?_, ?_⟩
  · simp only [step, ha, if_true]
  · simp only [step, ha, Bool.false_eq_true, if_false, send_personal_message, hconn, hok,
      if_true]
  · simp only [quotaAdmits, Bool.or_eq_false_iff, decide_eq_false_iff_not, not_lt]

/-- C1 witness: a free user at the limit (count 50) with a registered
healthy socket gets exactly the code-001 error frame and the loop
continues unchanged. -/
theorem quota_gate_admits_and_rejects_witness :
    step ⟨"u1", "alice", false⟩ ⟨⟨[("u1", ⟨true⟩)]⟩, 50, []⟩
        (.frame [("type", PyVal.s "chat")] none) =
      .next ⟨⟨[("u1", ⟨true⟩)]⟩, 50, [Effect.sentText "u1" quotaErrorFrame]⟩ :=
  (quota_gate_admits_and_rejects ⟨"u1", "alice", false⟩ ⟨⟨[("u1", ⟨true⟩)]⟩, 50, []⟩
      [("type", PyVal.s "chat")] none ⟨true⟩ rfl rfl).2.1 (by decide)

/-- C2: chat_id symmetry at both derivation sites — chat-session
creation (`create_new_chat_session`) and the `file_uploaded` handler
(`HandlerShowFile`) each produce the same chat id whichever of the two
participants initiates. -/
theorem chat_id_symmetric (a b : String) :
    create_new_chat_session_chat_id a b = create_new_chat_session_chat_id b a ∧
    show_file_chat_id a b = show_file_chat_id b a := by
  constructor
  · unfold create_new_chat_session_chat_id
    rw [sorted2_comm]
  · unfold show_file_chat_id
    rw [sorted2_comm]

/-- C3 counterexample: for participants `alice` and `bob`, the
chat-session creation path yields `alice::CHAT::bob` while the
`file_uploaded` handler path yields `alice_bob` — the handler path
does not use the `::CHAT::` separator and the two paths disagree. -/
theorem chat_id_paths_disagree_example :
    create_new_chat_session_chat_id "alice" "bob" = "alice::CHAT::bob" ∧
    show_file_chat_id "alice" "bob" = "alice_bob" ∧
    show_file_chat_id "alice" "bob" ≠ create_new_chat_session_chat_id "alice" "bob" := by
  decide

/-- C3 amended: the chat-session creation path sorts and joins with
`::CHAT::` while the `file_uploaded` handler path sorts and joins with
`_`; on any pair of identifier strings the creation-path chat id is
exactly 7 characters longer than the handler-path one, so the two
derivations never produce the same string. -/
theorem chat_id_paths_never_agree (a b : String) :
    (create_new_chat_session_chat_id a b).length =
      (show_file_chat_id a b).length + 7 := by
  unfold create_new_chat_session_chat_id show_file_chat_id
  have h8 : "::CHAT::".length = 8 := rfl
  have h1 : "_".length = 1 := rfl
  simp only [String.length_append, h8, h1]
  omega

/-- C4 (evaluating the code at the failing input): an admitted
`file_uploaded` frame with `s3_key`, `filename` and `recipient_id`.
For a premium sender the handler persists one file message and sends
the `file` announcement to recipient and sender; for a non-premium
sender it increments the durable counter and then raises
(`current_message_count += 1` on a never-assigned local name), so
nothing is persisted and nothing is delivered. -/
theorem show_file_premium_vs_free_example :
    (HandlerShowFile.handle_message ⟨[("u1", ⟨true⟩), ("u2", ⟨true⟩)]⟩
        ⟨"u1", "alice", true⟩
        [("type", PyVal.s "file_uploaded"), ("s3_key", PyVal.s "k1"),
         ("filename", PyVal.s "f.png"), ("recipient_id", PyVal.s "u2")] true =
      (.ok true (.str ""), ⟨[("u1", ⟨true⟩), ("u2", ⟨true⟩)]⟩,
       [.savedMessage (.s "u1_u2") "u1" "alice" (.s "k1") "file",
        .sentText "u2" [("type", .s "file"), ("sender_id", .s "u1"),
          ("chat_id", .s "u1_u2"), ("username", .s "alice"),
          ("filename", .s "f.png"), ("s3_key", .s "k1")],
        .sentText "u1" [("type", .s "file"), ("sender_id", .s "u1"),
          ("chat_id", .s "u1_u2"), ("username", .s "alice"),
          ("filename", .s "f.png"), ("s3_key", .s "k1")]])) ∧
    (HandlerShowFile.handle_message ⟨[("u1", ⟨true⟩), ("u2", ⟨true⟩)]⟩
        ⟨"u1", "alice", false⟩
        [("type", PyVal.s "file_uploaded"), ("s3_key", PyVal.s "k1"),
         ("filename", PyVal.s "f.png"), ("recipient_id", PyVal.s "u2")] true =
      (.exn, ⟨[("u1", ⟨true⟩), ("u2", ⟨true⟩)]⟩, [.incrementedCount "u1"])) := by
  decide

/-- C5: a send to a user id with no entry in the local registry
publishes exactly one envelope, holding exactly the target user id and
the payload, to the broadcast topic, and returns `True`. -/
theorem send_unregistered_publishes (cm : CMState) (frame : Frame) (user_id : String)
    (h : lookupStr cm.active_connections user_id = none) :
    send_personal_message cm frame (.s user_id) =
      (true, cm, [Effect.publishedEnvelope (.s user_id) frame]) := by
  simp only [send_personal_message, h]

/-- C5 witness: sending to `u9` with an empty registry. -/
theorem send_unregistered_publishes_witness :
    send_personal_message ⟨[]⟩ [("type", PyVal.s "chat")] (.s "u9") =
      (true, ⟨[]⟩, [Effect.publishedEnvelope (.s "u9") [("type", PyVal.s "chat")]]) :=
  send_unregistered_publishes ⟨[]⟩ [("type", PyVal.s "chat")] "u9" rfl

/-- C6 counterexample: an admitted frame of unknown type `foo` from
the registered user `u1` does not leave the connection open and
registered — the loop ends through the `except Exception` path and the
registry entry is removed. -/
theorem unknown_type_drops_connection_example :
    step ⟨"u1", "alice", false⟩ ⟨⟨[("u1", ⟨true⟩)]⟩, 0, []⟩
        (.frame [("type", PyVal.s "foo")] none) =
      .ended .exception ⟨⟨[]⟩, 0, []⟩ := by
  decide

/-- C6 amended: for an admitted frame whose type tag resolves to no
handler, nothing is persisted or delivered (the effect trace is
unchanged), but the `None.handle_message` call raises, the loop ends,
and the user's registry entry is removed. -/
theorem unknown_type_ends_connection (user : User) (st : LoopState)
    (data : Frame) (s3_result : Option (String × String))
    (hallow : quotaAdmits user st.current_message_count = true)
    (hunknown :
      FactoryHandler.get_instance_messages_type_handler (getField data "type") = none) :
    step user st (.frame data s3_result) =
      .ended .exception { st with cm := disconnect st.cm user.user_id } ∧
    lookupStr (disconnect st.cm user.user_id).active_connections user.user_id = none := by
  constructor
  · simp only [step, hallow, if_true, dispatchFrame, hunknown]
  · exact lookupStr_removeKey st.cm.active_connections user.user_id

/-- C6 witness for the amended claim, at the `foo` frame. -/
theorem unknown_type_ends_connection_witness :
    step ⟨"u1", "alice", true⟩ ⟨⟨[("u1", ⟨true⟩)]⟩, 0, []⟩
        (.frame [("type", PyVal.s "foo")] none) =
      .ended .exception ⟨⟨[]⟩, 0, []⟩ ∧
    lookupStr (disconnect ⟨[("u1", ⟨true⟩)]⟩ "u1").active_connections "u1" = none :=
  unknown_type_ends_connection ⟨"u1", "alice", true⟩ ⟨⟨[("u1", ⟨true⟩)]⟩, 0, []⟩
    [("type", PyVal.s "foo")] none (by decide) (by decide)

/-- C7 (evaluating the code at the failing input): a non-JSON frame
from registered user `u1` ends the receive loop through the
`except json.JSONDecodeError` clause with *no* error frame sent
(effect trace stays empty) and a subsequent frame never processed;
the registry entry survives, so the state is the connect-time state. -/
theorem invalid_json_ends_loop_example :
    runLoop ⟨"u1", "alice", true⟩ ⟨⟨[("u1", ⟨true⟩)]⟩, 0, []⟩
        [.invalidJson, .frame [("type", PyVal.s "chat")] none] =
      .ended .invalidJson ⟨⟨[("u1", ⟨true⟩)]⟩, 0, []⟩
        [.frame [("type", PyVal.s "chat")] none] := by
  decide

/-- C8 (evaluating the code at the failing input): a `chat` frame with
no `recipient_id` but a truthy `chat_id` and `content`, from an
admitted non-premium sender, is *not* rejected: the handler persists
the message, increments the durable counter, echoes the frame to the
sender and publishes an envelope whose target is Python `None`. -/
theorem chat_missing_recipient_admitted_example :
    HandlerMessageChat.handle_message ⟨[("u1", ⟨true⟩)]⟩ ⟨"u1", "alice", false⟩
        [("type", PyVal.s "chat"), ("chat_id", PyVal.s "alice_bob"),
         ("content", PyVal.s "hi")] true =
      (.ok true (.str "incremented"), ⟨[("u1", ⟨true⟩)]⟩,
       [.savedMessage (.s "alice_bob") "u1" "alice" (.s "hi") "text",
        .incrementedCount "u1",
        .sentText "u1" [("type", .s "chat"), ("sender_id", .s "u1"),
          ("chat_id", .s "alice_bob"), ("username", .s "alice"),
          ("content", .s "hi")],
        .publishedEnvelope .none_ [("type", .s "chat"), ("sender_id", .s "u1"),
          ("chat_id", .s "alice_bob"), ("username", .s "alice"),
          ("content", .s "hi")]]) := by
  decide

/-- C9: the free-tier file-size boundary.  For a non-premium user's
`file_request` with truthy `filename` and an integer `filesize` (and
the collaborator returning a descriptor): the request is rejected with
an error frame exactly when `filesize` is strictly greater than
`MAX_FREE_FILE_SIZE_BYTES`; otherwise (equality included) the
descriptor is requested and the `file_upload_url` frame is sent to the
requester. -/
theorem file_request_free_tier_boundary (cm : CMState) (user : User) (data : Frame)
    (fs : Int) (url s3_key : String) (sock : Socket)
    (hfree : user.is_premium = false)
    (hname : (getField data "filename").truthy = true)
    (hsize : getField data "filesize" = .n fs)
    (hfs : fs ≠ 0)
    (hconn : lookupStr cm.active_connections user.user_id = some sock)
    (hok : sock.healthy = true) :
    ((MAX_FREE_FILE_SIZE_BYTES : Int) < fs →
        HandlerFileRequestUpload.handle_message cm user data true (some (url, s3_key)) =
          (.ok false (.errObj [("type", .s "error"),
              ("content", .s ("File size exceeds free limit of " ++
                 toString MAX_FREE_FILE_SIZE_MB ++ "MB."))]),
           cm,
           [Effect.sentText user.user_id [("type", .s "error"),
              ("content", .s ("File size exceeds free limit of " ++
                 toString MAX_FREE_FILE_SIZE_MB ++ "MB."))]])) ∧
    (fs ≤ (MAX_FREE_FILE_SIZE_BYTES : Int) →
        HandlerFileRequestUpload.handle_message cm user data true (some (url, s3_key)) =
          (.ok true (.str ""), cm,
           [Effect.presignRequested user.user_id (getField data "filename"),
            Effect.sentText user.user_id
              [("type", .s "file_upload_url"), ("filename", getField data "filename"),
               ("url", .s url), ("s3_key", .s s3_key)]])) := by
  have htr2 : (PyVal.n fs).truthy = true := by
    simp [PyVal.truthy, hfs]
  constructor
  · intro hgt
    have hd : pyGtInt (PyVal.n fs) (MAX_FREE_FILE_SIZE_BYTES : Int) = some true := by
      simp [pyGtInt, hgt]
    simp [HandlerFileRequestUpload.handle_message, hname, hsize, htr2, hfree, hd,
      send_personal_message, hconn, hok]
  · intro hle
    have hd : pyGtInt (PyVal.n fs) (MAX_FREE_FILE_SIZE_BYTES : Int) = some false := by
      simp [pyGtInt, not_lt.mpr hle]
    simp [HandlerFileRequestUpload.handle_message, hname, hsize, htr2, hfree, hd,
      send_personal_message, hconn, hok]

/-- C9 witness: a two-megabyte request (`filesize` exactly
`MAX_FREE_FILE_SIZE_BYTES`) from a free user is admitted and the
upload descriptor is returned. -/
theorem file_request_free_tier_boundary_witness :
    (2097152 : Int) ≤ (MAX_FREE_FILE_SIZE_BYTES : Int) ∧
    HandlerFileRequestUpload.handle_message ⟨[("u1", ⟨true⟩)]⟩ ⟨"u1", "alice", false⟩
        [("filename", PyVal.s "f.png"), ("filesize", PyVal.n 2097152)] true
        (some ("http://x", "k1")) =
      (.ok true (.str ""), ⟨[("u1", ⟨true⟩)]⟩,
       [Effect.presignRequested "u1" (PyVal.s "f.png"),
        Effect.sentText "u1"
          [("type", PyVal.s "file_upload_url"), ("filename", PyVal.s "f.png"),
           ("url", PyVal.s "http://x"), ("s3_key", PyVal.s "k1")]]) := by
  refine ⟨by decide, ?_⟩
  have h := (file_request_free_tier_boundary ⟨[("u1", ⟨true⟩)]⟩ ⟨"u1", "alice", false⟩
      [("filename", PyVal.s "f.png"), ("filesize", PyVal.n 2097152)]
      2097152 "http://x" "k1" ⟨true⟩ rfl (by decide) (by decide) (by decide)
      rfl rfl).2 (by decide)
  exact h

/-- C10: registry-cleanup per termination cause.  If one loop
iteration ends through the `json.JSONDecodeError` clause the state
(in particular the registry) is exactly the state before the frame —
`disconnect` is not called; ending through the disconnect signal or
any other uncaught exception leaves the user's registry entry
removed. -/
theorem loop_exit_registry_cleanup (user : User) (st : LoopState) (ev : Inbound)
    (c : EndCause) (st' : LoopState)
    (h : step user st ev = .ended c st') :
    (c = .invalidJson → st' = st) ∧
    ((c = .disconnectSignal ∨ c = .exception) →
        lookupStr st'.cm.active_connections user.user_id = none) := by
  cases ev with
  | disconnectSignal =>
      simp only [step, StepResult.ended.injEq] at h
      obtain ⟨hc, hst⟩ := h
      subst hc
      refine ⟨(fun hcc => by cases hcc), fun _ => ?_⟩
      rw [← hst]
      exact lookupStr_removeKey st.cm.active_connections user.user_id
  | invalidJson =>
      simp only [step, StepResult.ended.injEq] at h
      obtain ⟨hc, hst⟩ := h
      subst hc
      refine ⟨fun _ => hst.symm, fun hcc => ?_⟩
      rcases hcc with hcc | hcc <;> cases hcc
  | nonObjectJson v =>
      simp only [step, StepResult.ended.injEq] at h
      obtain ⟨hc, hst⟩ := h
      subst hc
      refine ⟨(fun hcc => by cases hcc), fun _ => ?_⟩
      rw [← hst]
      exact lookupStr_removeKey st.cm.active_connections user.user_id
  | frame data s3_result =>
      simp only [step] at h
      split at h
      · have hd := dispatchFrame_ended user st data s3_result c st' h
        refine ⟨fun hcc => ?_, fun _ => hd.2⟩
        rw [hcc] at hd
        cases hd.1
      · simp at h

/-- C10 witness: an explicit disconnect signal removes `u1`'s entry. -/
theorem loop_exit_registry_cleanup_witness :
    lookupStr (⟨⟨[]⟩, 0, []⟩ : LoopState).cm.active_connections "u1" = none :=
  (loop_exit_registry_cleanup ⟨"u1", "alice", true⟩ ⟨⟨[("u1", ⟨true⟩)]⟩, 0, []⟩
      .disconnectSignal .disconnectSignal ⟨⟨[]⟩, 0, []⟩ (by decide)).2 (Or.inl rfl)

end ChatApp
